import Mathlib

/-!
A shallow embedding of the Sims4PackageValidator repository (the parts the
claims concern): `files.py`, `validators/magic_numbers/packages.py`,
`validators/package_validator.py` and `handlers/package_handler.py`.

Python integers are `Nat` (all values involved are unsigned struct fields or
file sizes), byte strings are `List Nat`, fallible code returns
`Except PyError`, and an opened binary file is a `Reader` (content plus
cursor) with a boolean fault oracle standing for I/O errors raised by
`seek`/`read`.
-/

namespace Sims4PackageValidator

/-- `CCType` from `files.py`. -/
inductive CCType
  | PACKAGE
  | SCRIPT
  | IMAGE
  | OTHER
deriving DecidableEq, Repr

/-- `CCFile` from `files.py`, restricted to the fields the package validator
reads; the `file_path` field is represented indirectly by an `FSFile`. -/
structure CCFile where
  file_type : CCType
  file_size_bytes : Nat
deriving DecidableEq, Repr

/-- The state of the filesystem at a `CCFile`'s path, plus a fault oracle:
`fault = true` means every `seek`/`read` on a stream opened at this path
raises an `OSError`. `stSize` is `path.stat().st_size`; `bytes` is the
content an `open("rb")` stream yields. They coincide for a quiescent regular
file but are kept separate so that stale metadata is representable. -/
structure FSFile where
  pathExists : Bool
  isRegularFile : Bool
  stSize : Nat
  bytes : List Nat
  fault : Bool
deriving DecidableEq, Repr

/-- `ValidationError` from `validators/package_validator.py`. -/
inductive ValidationError
  | FILE_TOO_SMALL
  | INVALID_FILE_IDENTIFIER
  | INVALID_FORMAT_VERSION
  | INVALID_UNKNOWN_CONSTANT
  | INDEX_OUT_OF_BOUNDS
  | EMPTY_INDEX_INFO
  | INVALID_INDEX
  | INDEX_PARSE_ERROR
  | FILE_NOT_FOUND
  | FILE_NOT_FILE
  | UNKNOWN_ERROR
deriving DecidableEq, Repr

/-- The Python exceptions that arise in this codebase. `packageExc` is the
repository's `PackageException` carrying its `error` member;
`packageHandlerExc` is the handler's `PackageHandlerException`; the rest model
the builtin exception classes raised by the operations the code performs. -/
inductive PyError
  | packageExc (e : ValidationError)
  | packageHandlerExc
  | valueError
  | attributeError
  | fileNotFoundError
  | osError
  | structError
deriving DecidableEq, Repr

/-- A binary stream obtained from `open("rb")`: content, cursor position and
the fault oracle. -/
structure Reader where
  data : List Nat
  pos : Nat
  fault : Bool
deriving DecidableEq, Repr

/-- `f.read(n)`: returns up to `n` bytes starting at the cursor and advances
the cursor by the number of bytes actually returned. -/
def rread (r : Reader) (n : Nat) : List Nat × Reader :=
  let chunk := (r.data.drop r.pos).take n
  (chunk, { r with pos := r.pos + chunk.length })

/-- `f.read(n)` through the fault oracle: a faulty stream raises `OSError`. -/
def rreadE (r : Reader) (n : Nat) : Except PyError (List Nat × Reader) :=
  if r.fault then .error .osError else .ok (rread r n)

/-- `f.seek(n)`: moves the cursor (seeking past the end is legal in Python). -/
def rseekE (r : Reader) (n : Nat) : Except PyError Reader :=
  if r.fault then .error .osError else .ok { r with pos := n }

/-- `path.open("rb")`: raises `FileNotFoundError` when the path is absent. -/
def pyOpen (fs : FSFile) : Except PyError Reader :=
  if fs.pathExists then .ok { data := fs.bytes, pos := 0, fault := fs.fault }
  else .error .fileNotFoundError

/-- Byte `i` of a buffer (used only at indices proven or checked in range). -/
def byteAt (data : List Nat) (i : Nat) : Nat := data.getD i 0

/-- Little-endian unsigned value of `n` bytes starting at `off`, the way
`struct.unpack` with format `<` decodes an unsigned integer field. -/
def readLE (data : List Nat) (off : Nat) : Nat → Nat
  | 0 => 0
  | n + 1 => byteAt data off + 256 * readLE data (off + 1) n

namespace magic

/-! `validators/magic_numbers/packages.py`. -/

def HEADER_SIZE : Nat := 96

def INDEX_HEADER_SIZE : Nat := 4

def INDEX_VERSION_MAJOR : Nat := 0

def INDEX_VERSION_MINOR : Nat := 3

def STATIC_ENTRY_SIZE : Nat := 16

/-- `FILE_IDENTIFIER = b"DBPF"`. -/
def FILE_IDENTIFIER : List Nat := [68, 66, 80, 70]

def MIN_FILE_SIZE : Nat := HEADER_SIZE

def EXPECTED_MAJOR_FORMAT_VERSION : Nat := 2

def EXPECTED_MINOR_FORMAT_VERSION : Nat := 1

def EXPECTED_UNKNOWN_CONSTANT_ONE : Nat := 0

def EXPECTED_HOLE_OFFSET : Nat := 3

/-- Python attribute lookup on the integer attributes of the module
`validators.magic_numbers.packages`: `magicAttr n = some v` exactly when
`packages.py` binds `n` to the integer `v`; `none` models the
`AttributeError` raised on accessing an undefined attribute. -/
def magicAttr : String → Option Nat
  | "HEADER_SIZE" => some HEADER_SIZE
  | "INDEX_HEADER_SIZE" => some INDEX_HEADER_SIZE
  | "INDEX_VERSION_MAJOR" => some INDEX_VERSION_MAJOR
  | "INDEX_VERSION_MINOR" => some INDEX_VERSION_MINOR
  | "STATIC_ENTRY_SIZE" => some STATIC_ENTRY_SIZE
  | "MIN_FILE_SIZE" => some MIN_FILE_SIZE
  | "EXPECTED_MAJOR_FORMAT_VERSION" => some EXPECTED_MAJOR_FORMAT_VERSION
  | "EXPECTED_MINOR_FORMAT_VERSION" => some EXPECTED_MINOR_FORMAT_VERSION
  | "EXPECTED_UNKNOWN_CONSTANT_ONE" => some EXPECTED_UNKNOWN_CONSTANT_ONE
  | "EXPECTED_HOLE_OFFSET" => some EXPECTED_HOLE_OFFSET
  | _ => none

end magic

namespace validator

/-- `DBPFHeader` from `validators/package_validator.py`. -/
structure DBPFHeader where
  file_signature : List Nat
  major_format_version : Nat
  minor_format_version : Nat
  major_file_version : Nat
  minor_file_version : Nat
  unknown_one : Nat
  creation_time : Nat
  update_time : Nat
  unknown_two : Nat
  index_count : Nat
  index_offset_short : Nat
  index_size : Nat
  unknown_three : List Nat
  unknown_constant : Nat
  index_offset_long : Nat
  padding : List Nat
deriving DecidableEq, Repr

/-- `SimsPackageValidator._parse_dbpf2_header`: `struct.unpack` with format
`"<4s 11I 12s I Q 24s"`, which raises `struct.error` unless given exactly 96
bytes, then the field-by-field construction of `DBPFHeader`. -/
def parse_dbpf2_header (header_data : List Nat) : Except PyError DBPFHeader :=
  if header_data.length ≠ magic.HEADER_SIZE then .error .structError
  else .ok
    { file_signature := header_data.take 4,
      major_format_version := readLE header_data 4 4,
      minor_format_version := readLE header_data 8 4,
      major_file_version := readLE header_data 12 4,
      minor_file_version := readLE header_data 16 4,
      unknown_one := readLE header_data 20 4,
      creation_time := readLE header_data 24 4,
      update_time := readLE header_data 28 4,
      unknown_two := readLE header_data 32 4,
      index_count := readLE header_data 36 4,
      index_offset_short := readLE header_data 40 4,
      index_size := readLE header_data 44 4,
      unknown_three := (header_data.drop 48).take 12,
      unknown_constant := readLE header_data 60 4,
      index_offset_long := readLE header_data 64 8,
      padding := (header_data.drop 72).take 24 }

/-- `SimsPackageValidator.validate_file_meta`. The local variables
`error_msg`/`error_code` are always set together, so only `error_code` is
tracked; a later failing check overwrites an earlier code. The call
`path.stat()` in the third condition raises `FileNotFoundError` when the path
does not exist, before the accumulated code can be raised. -/
def validate_file_meta (f : CCFile) (fs : FSFile) : Except PyError Unit :=
  if f.file_type ≠ CCType.PACKAGE then .error .valueError
  else
    let ec1 : Option ValidationError :=
      if !fs.pathExists then some .FILE_NOT_FOUND else none
    let ec2 : Option ValidationError :=
      if !(fs.pathExists && fs.isRegularFile) then some .FILE_NOT_FILE else ec1
    if !fs.pathExists then .error .fileNotFoundError
    else
      let ec3 : Option ValidationError :=
        if fs.stSize < magic.MIN_FILE_SIZE then some .FILE_TOO_SMALL else ec2
      match ec3 with
      | some e => .error (.packageExc e)
      | none => .ok ()

/-- The shared tail `if error_code and error_msg: raise PackageException(...)`
of `validate_header` and `validate_index_info` (both track `error_msg` and
`error_code` together, so only the code is carried), followed by the implicit
`return None`. -/
def raise_if_set (ec : Option ValidationError) : Except PyError (Option ValidationError) :=
  match ec with
  | some e => .error (.packageExc e)
  | none => .ok none

/-- `SimsPackageValidator.validate_header`. The third check reads
`magic.EXPECTED_UNKNOWN_CONSTANT`, an attribute the magic-numbers module does
not define, so the attribute lookup is modelled explicitly; on `none` the
access raises `AttributeError`. On success the Python function returns `None`
(`.ok none`); a detected problem is raised as `PackageException`. -/
def validate_header (header : DBPFHeader) : Except PyError (Option ValidationError) :=
  let ec1 : Option ValidationError :=
    if header.file_signature ≠ magic.FILE_IDENTIFIER then
      some .INVALID_FILE_IDENTIFIER
    else none
  let ec2 : Option ValidationError :=
    if header.major_format_version ≠ magic.EXPECTED_MAJOR_FORMAT_VERSION ∨
        header.minor_format_version ≠ magic.EXPECTED_MINOR_FORMAT_VERSION then
      some .INVALID_FORMAT_VERSION
    else ec1
  match magic.magicAttr "EXPECTED_UNKNOWN_CONSTANT" with
  | none => .error .attributeError
  | some c =>
    let ec3 : Option ValidationError :=
      if header.unknown_constant ≠ c then some .INVALID_UNKNOWN_CONSTANT else ec2
    raise_if_set ec3

/-- `SimsPackageValidator.validate_index_info`. The `try` block seeks to
`index_offset_short` and reads `index_size` bytes; a faulty stream raises
inside the `try`, and the `except` arm overwrites any earlier error code with
`INDEX_PARSE_ERROR`. On success the Python function returns `None`. -/
def validate_index_info (r : Reader) (header : DBPFHeader) (file_size_bytes : Nat) :
    Except PyError (Option ValidationError) :=
  let ec1 : Option ValidationError :=
    if header.index_size = 0 then some .EMPTY_INDEX_INFO else none
  let ec2 : Option ValidationError :=
    if header.index_offset_short > file_size_bytes ∨
        header.index_offset_short + header.index_size > file_size_bytes then
      some .INDEX_OUT_OF_BOUNDS
    else ec1
  let ec3 : Option ValidationError :=
    if r.fault then some .INDEX_PARSE_ERROR
    else
      let chunk := (rread { r with pos := header.index_offset_short } header.index_size).1
      if chunk.length ≠ header.index_size then some .INVALID_INDEX else ec2
  raise_if_set ec3

/-- The suite of the `try` statement in `SimsPackageValidator.validate`:
file-meta validation, opening the file, reading and parsing the header, then
the header and index-info validations, with each walrus `if error := ...`
returning the error value when one is returned (the sub-validators in fact
communicate failures by raising, so those arms fire only on `.ok (some _)`). -/
def validate_body (f : CCFile) (fs : FSFile) : Except PyError (Option ValidationError) :=
  match validate_file_meta f fs with
  | .error e => .error e
  | .ok _ =>
    match pyOpen fs with
    | .error e => .error e
    | .ok r =>
      match rreadE r magic.HEADER_SIZE with
      | .error e => .error e
      | .ok (header_data, r1) =>
        match parse_dbpf2_header header_data with
        | .error e => .error e
        | .ok header =>
          match validate_header header with
          | .error e => .error e
          | .ok (some err) => .ok (some err)
          | .ok none =>
            match validate_index_info r1 header f.file_size_bytes with
            | .error e => .error e
            | .ok (some err) => .ok (some err)
            | .ok none => .ok none

/-- `SimsPackageValidator.validate`: runs the `try` suite and dispatches on
the exception handlers in source order — `PackageException` returns its
`error`, `ValueError` is re-raised, any other exception returns
`UNKNOWN_ERROR`. `.ok none` is Python's implicit `None` return (file passed). -/
def validate (f : CCFile) (fs : FSFile) : Except PyError (Option ValidationError) :=
  match validate_body f fs with
  | .ok v => .ok v
  | .error (.packageExc e) => .ok (some e)
  | .error .valueError => .error .valueError
  | .error _ => .ok (some .UNKNOWN_ERROR)

end validator

namespace handler

/-- `DBPFHeader` from `handlers/package_handler.py` (same byte layout as the
validator's, different field names). -/
structure DBPFHeader where
  file_signature : List Nat
  major_format_version : Nat
  minor_format_version : Nat
  major_file_version : Nat
  minor_file_version : Nat
  unknown_constant_one : Nat
  creation_time : Nat
  update_time : Nat
  index_major_version : Nat
  index_count : Nat
  index_offset_short : Nat
  index_size : Nat
  hole_entry_count : List Nat
  hole_offset : Nat
  index_offset_long : Nat
  padding : List Nat
deriving DecidableEq, Repr

/-- `DBPFIndexHeader` from `handlers/package_handler.py`: the raw directory
flags and the three masked bits (`raw_flags & 0x1`, `& 0x2`, `& 0x4`). -/
structure DBPFIndexHeader where
  raw_flags : Nat
  constant_type : Nat
  constant_group : Nat
  constant_instance : Nat
deriving DecidableEq, Repr

/-- `DBPFEntry` from `handlers/package_handler.py`. `extended_entry` is kept
as the integer `(x >> 31) & 0x1` that the source assigns to the field; Python
then tests it for truthiness. -/
structure DBPFEntry where
  resource_key_type : Option Nat
  resource_key_group : Option Nat
  resource_key_instance_upper_32_bits : Option Nat
  resource_key_instance_lower_32_bits : Nat
  resource_offset : Nat
  compressed_size : Nat
  uncompressed_size : Nat
  extended_entry : Nat
  compression_type : Option Nat
  comitted : Option Nat
deriving DecidableEq, Repr

/-- `Sims4PackageHandler.get_header`: `struct.unpack` of
`"<4s 11I 12s I Q 24s"` on the 96 header bytes read at `__enter__`
(raises `struct.error` unless given exactly 96 bytes). -/
def get_header (header_bytes : List Nat) : Except PyError DBPFHeader :=
  if header_bytes.length ≠ magic.HEADER_SIZE then .error .structError
  else .ok
    { file_signature := header_bytes.take 4,
      major_format_version := readLE header_bytes 4 4,
      minor_format_version := readLE header_bytes 8 4,
      major_file_version := readLE header_bytes 12 4,
      minor_file_version := readLE header_bytes 16 4,
      unknown_constant_one := readLE header_bytes 20 4,
      creation_time := readLE header_bytes 24 4,
      update_time := readLE header_bytes 28 4,
      index_major_version := readLE header_bytes 32 4,
      index_count := readLE header_bytes 36 4,
      index_offset_short := readLE header_bytes 40 4,
      index_size := readLE header_bytes 44 4,
      hole_entry_count := (header_bytes.drop 48).take 12,
      hole_offset := readLE header_bytes 60 4,
      index_offset_long := readLE header_bytes 64 8,
      padding := (header_bytes.drop 72).take 24 }

/-- `Sims4PackageHandler.parse_index_flags`: seek to `index_offset_long`,
read 4 bytes, `struct.unpack("<I", ...)` them (raising `struct.error` on a
short read) and split out the three flag bits by masking. -/
def parse_index_flags (r : Reader) (header : DBPFHeader) :
    Except PyError (DBPFIndexHeader × Reader) :=
  match rseekE r header.index_offset_long with
  | .error e => .error e
  | .ok r1 =>
    match rreadE r1 magic.INDEX_HEADER_SIZE with
    | .error e => .error e
    | .ok (chunk, r2) =>
      if chunk.length ≠ 4 then .error .structError
      else
        let raw_flags := readLE chunk 0 4
        .ok ({ raw_flags := raw_flags,
               constant_type := raw_flags &&& 0x1,
               constant_group := raw_flags &&& 0x2,
               constant_instance := raw_flags &&& 0x4 }, r2)

/-- The repeated pattern `struct.unpack("<I", self._file.read(4))[0]` inside
the entry loop of `get_entries`: read 4 bytes and decode them little-endian,
raising `struct.error` on a short read. -/
def readU32E (r : Reader) : Except PyError (Nat × Reader) :=
  match rreadE r 4 with
  | .error e => .error e
  | .ok (chunk, r1) =>
    if chunk.length ≠ 4 then .error .structError
    else .ok (readLE chunk 0 4, r1)

/-- One optional resource-key field in the entry loop of `get_entries`:
`if parsed_flags.<bit> != 0: value = struct.unpack("<I", self._file.read(4))[0]`,
otherwise the field keeps its `None` initialisation. -/
def read_optional_u32 (flagbit : Nat) (r : Reader) :
    Except PyError (Option Nat × Reader) :=
  if flagbit ≠ 0 then
    match readU32E r with
    | .error e => .error e
    | .ok (v, r1) => .ok (some v, r1)
  else .ok (none, r)

/-- The body of the `for` loop in `Sims4PackageHandler.get_entries`, decoding
one `DBPFEntry` from the stream after the per-iteration seek: the three
optional resource-key fields gated on the directory-flag bits, the 16-byte
static part (`struct.unpack("<4I", ...)`, `struct.error` on a short read),
the split of the packed-size word into `compressed_size` and
`extended_entry`, and the 4 extra bytes `struct.unpack("<HH", ...)` when the
extended-entry bit is set. -/
def decode_entry (flags : DBPFIndexHeader) (r : Reader) :
    Except PyError (DBPFEntry × Reader) :=
  match read_optional_u32 flags.constant_type r with
  | .error e => .error e
  | .ok (resource_key_type, r1) =>
    match read_optional_u32 flags.constant_group r1 with
    | .error e => .error e
    | .ok (resource_key_group, r2) =>
      match read_optional_u32 flags.constant_instance r2 with
      | .error e => .error e
      | .ok (resource_key_instance_upper, r3) =>
        match rreadE r3 magic.STATIC_ENTRY_SIZE with
        | .error e => .error e
        | .ok (entry_bytes, r4) =>
          if entry_bytes.length ≠ 16 then .error .structError
          else
            let lower := readLE entry_bytes 0 4
            let offset := readLE entry_bytes 4 4
            let packed := readLE entry_bytes 8 4
            let usize := readLE entry_bytes 12 4
            let base : DBPFEntry :=
              { resource_key_type := resource_key_type,
                resource_key_group := resource_key_group,
                resource_key_instance_upper_32_bits := resource_key_instance_upper,
                resource_key_instance_lower_32_bits := lower,
                resource_offset := offset,
                compressed_size := packed &&& 0x7FFFFFFF,
                uncompressed_size := usize,
                extended_entry := (packed >>> 31) &&& 0x1,
                compression_type := none,
                comitted := none }
            if base.extended_entry ≠ 0 then
              match rreadE r4 4 with
              | .error e => .error e
              | .ok (ext_bytes, r5) =>
                if ext_bytes.length ≠ 4 then .error .structError
                else .ok
                  ({ base with
                      compression_type := some (readLE ext_bytes 0 2),
                      comitted := some (readLE ext_bytes 2 2) }, r5)
            else .ok (base, r4)

/-- The `for entry in range(parsed_header.index_count)` loop of
`get_entries`. `index_pos` is the local variable initialised to
`magic.HEADER_SIZE` before the loop; the source never updates it, and every
iteration begins with `self._file.seek(index_pos)`. -/
def entries_loop (flags : DBPFIndexHeader) (index_pos : Nat) :
    Nat → Reader → Except PyError (List DBPFEntry × Reader)
  | 0, r => .ok ([], r)
  | n + 1, r =>
    match rseekE r index_pos with
    | .error e => .error e
    | .ok r1 =>
      match decode_entry flags r1 with
      | .error e => .error e
      | .ok (e, r2) =>
        match entries_loop flags index_pos n r2 with
        | .error err => .error err
        | .ok (rest, r3) => .ok (e :: rest, r3)

/-- `Sims4PackageHandler.get_entries` on a package whose content is `data`
(the `__enter__` read of the 96 header bytes is included): parse the header
and the index flags, then run the entry loop inside the `try` statement whose
`except` arm re-raises any exception as `PackageHandlerException`. -/
def get_entries (data : List Nat) (fault : Bool) : Except PyError (List DBPFEntry) :=
  match rreadE { data := data, pos := 0, fault := fault } magic.HEADER_SIZE with
  | .error e => .error e
  | .ok (header_bytes, r0) =>
    match get_header header_bytes with
    | .error e => .error e
    | .ok header =>
      match parse_index_flags r0 header with
      | .error e => .error e
      | .ok (flags, r1) =>
        let attempt : Except PyError (List DBPFEntry × Reader) :=
          match rseekE r1 header.index_offset_long with
          | .error e => .error e
          | .ok r2 => entries_loop flags magic.HEADER_SIZE header.index_count r2
        match attempt with
        | .error _ => .error .packageHandlerExc
        | .ok (es, _) => .ok es

end handler

/-! Concrete inputs used by the counterexamples and witnesses below. -/

/-- A header that conforms to every documented expectation: `DBPF` signature,
format version 2.1, constant-one field `0` and hole-offset field `3`. -/
def c2header : validator.DBPFHeader :=
  { file_signature := magic.FILE_IDENTIFIER,
    major_format_version := 2, minor_format_version := 1,
    major_file_version := 0, minor_file_version := 0,
    unknown_one := 0, creation_time := 0, update_time := 0, unknown_two := 0,
    index_count := 0, index_offset_short := 96, index_size := 4,
    unknown_three := List.replicate 12 0, unknown_constant := 3,
    index_offset_long := 96, padding := List.replicate 24 0 }

/-- A 96-byte file whose signature is `b"XXXX"` and whose remaining header
fields all carry their expected values (format 2.1, constant-one 0,
hole-offset 3). -/
def c3bytes : List Nat :=
  [88, 88, 88, 88] ++ [2, 0, 0, 0] ++ [1, 0, 0, 0] ++ List.replicate 48 0 ++
    [3, 0, 0, 0] ++ List.replicate 32 0

/-- The filesystem state for `c3bytes`: an existing 96-byte regular file. -/
def c3fs : FSFile :=
  { pathExists := true, isRegularFile := true, stSize := 96, bytes := c3bytes,
    fault := false }

/-- The filesystem state at a path that does not exist. -/
def c4fs : FSFile :=
  { pathExists := false, isRegularFile := false, stSize := 0, bytes := [],
    fault := false }

/-- A 132-byte package: header with `index_count = 2` and
`index_offset_long = 96`, four zero flag bytes at offset 96, then two
byte-distinct 16-byte directory entries at offsets 100 and 116. -/
def c5data : List Nat :=
  List.replicate 36 0 ++ [2, 0, 0, 0] ++ List.replicate 24 0 ++
    [96, 0, 0, 0, 0, 0, 0, 0] ++ List.replicate 24 0 ++ [0, 0, 0, 0] ++
    [1, 0, 0, 0, 2, 0, 0, 0, 3, 0, 0, 0, 4, 0, 0, 0] ++
    [5, 0, 0, 0, 6, 0, 0, 0, 7, 0, 0, 0, 8, 0, 0, 0]

/-- The single entry value that `get_entries` decodes — twice — from
`c5data`: the 16 bytes at offset 96. -/
def c5entry : handler.DBPFEntry :=
  { resource_key_type := none, resource_key_group := none,
    resource_key_instance_upper_32_bits := none,
    resource_key_instance_lower_32_bits := 0, resource_offset := 1,
    compressed_size := 2, uncompressed_size := 3, extended_entry := 0,
    compression_type := none, comitted := none }

/-- 28 bytes of entry data: three optional 4-byte fields followed by the
16-byte static part. -/
def c6bytes : List Nat :=
  [1, 0, 0, 0, 2, 0, 0, 0, 3, 0, 0, 0, 9, 0, 0, 0, 8, 0, 0, 0, 7, 0, 0, 0,
    6, 0, 0, 0]

/-- The index flags for `raw_flags = 0b111`: all three masked bits set. -/
def c6flags : handler.DBPFIndexHeader :=
  { raw_flags := 7, constant_type := 1, constant_group := 2,
    constant_instance := 4 }

/-- The entry `decode_entry` produces from `c6bytes` under `c6flags`. -/
def c6entry : handler.DBPFEntry :=
  { resource_key_type := some 1, resource_key_group := some 2,
    resource_key_instance_upper_32_bits := some 3,
    resource_key_instance_lower_32_bits := 9, resource_offset := 8,
    compressed_size := 7, uncompressed_size := 6, extended_entry := 0,
    compression_type := none, comitted := none }

/-- A header with an empty index (`index_size = 0`) whose
`index_offset_short = 1000` also lies beyond the 500-byte file it is
validated against. -/
def c7header : validator.DBPFHeader :=
  { c2header with index_size := 0, index_offset_short := 1000 }

/-- A second header violating both the empty-index and the bounds check,
used with a 40-byte file size. -/
def c7header2 : validator.DBPFHeader :=
  { c2header with index_size := 0, index_offset_short := 50 }

/-- A header asking for 10 index bytes at offset 0, in bounds for a claimed
file size of 10 — while the actual stream holds 0 bytes. -/
def c8header : validator.DBPFHeader :=
  { c2header with index_size := 10, index_offset_short := 0 }

/-! Helper lemmas shared by the claim theorems. -/

/-- `validate_header` raises `AttributeError` on every call: the attribute
`EXPECTED_UNKNOWN_CONSTANT` it reads is not defined by the magic-numbers
module. -/
theorem validate_header_attributeError (h : validator.DBPFHeader) :
    validator.validate_header h = .error .attributeError := rfl

/-- For a `PACKAGE`-typed `CCFile` at an existing regular path of at least
`MIN_FILE_SIZE` bytes, `validate_file_meta` returns normally. -/
theorem validate_file_meta_ok (f : CCFile) (fs : FSFile)
    (h1 : f.file_type = CCType.PACKAGE) (h2 : fs.pathExists = true)
    (h3 : fs.isRegularFile = true) (h4 : magic.MIN_FILE_SIZE ≤ fs.stSize) :
    validator.validate_file_meta f fs = .ok () := by
  unfold validator.validate_file_meta
  simp [h1, h2, h3, Nat.not_lt.mpr h4]

/-- Under the hypotheses of `validate_file_meta_ok`, `validate` always
reports `UNKNOWN_ERROR`: the header is read and parsed (any read fault or
short parse also lands in the generic handler), and `validate_header` then
raises `AttributeError`, which the generic `except Exception` arm of
`validate` converts to `UNKNOWN_ERROR`. -/
theorem validate_unknown_of_wellformed (f : CCFile) (fs : FSFile)
    (h1 : f.file_type = CCType.PACKAGE) (h2 : fs.pathExists = true)
    (h3 : fs.isRegularFile = true) (h4 : magic.MIN_FILE_SIZE ≤ fs.stSize) :
    validator.validate f fs = .ok (some .UNKNOWN_ERROR) := by
  have hm := validate_file_meta_ok f fs h1 h2 h3 h4
  unfold validator.validate validator.validate_body
  rw [hm]
  unfold pyOpen
  rw [h2]
  cases hf : fs.fault with
  | true => simp [rreadE, hf]
  | false =>
    simp only [if_true, rreadE, hf, Bool.false_eq_true, if_false]
    cases hp : validator.parse_dbpf2_header
        (rread { data := fs.bytes, pos := 0, fault := false } magic.HEADER_SIZE).1 with
    | error e =>
      have he : e = PyError.structError := by
        unfold validator.parse_dbpf2_header at hp
        split at hp
        · injection hp with h
          exact h.symm
        · simp at hp
      subst he
      rfl
    | ok header =>
      rfl

/-- A successful `read` leaves content and fault flag intact and advances the
cursor by the length of the returned chunk. -/
theorem rreadE_ok (r : Reader) (n : Nat) (chunk : List Nat) (r2 : Reader)
    (h : rreadE r n = .ok (chunk, r2)) :
    r.fault = false ∧ chunk = (r.data.drop r.pos).take n ∧
      r2 = { r with pos := r.pos + chunk.length } := by
  unfold rreadE rread at h
  split at h
  · simp at h
  · next hf =>
    simp only [Except.ok.injEq, Prod.mk.injEq] at h
    exact ⟨Bool.not_eq_true r.fault ▸ hf, h.1.symm, by rw [← h.2, h.1]⟩

/-- A successful `readU32E` consumed exactly 4 bytes. -/
theorem readU32E_ok (r : Reader) (v : Nat) (r2 : Reader)
    (h : handler.readU32E r = .ok (v, r2)) :
    r2.data = r.data ∧ r2.fault = r.fault ∧ r2.pos = r.pos + 4 := by
  unfold handler.readU32E at h
  cases hr : rreadE r 4 with
  | error e => rw [hr] at h; simp at h
  | ok p =>
    rw [hr] at h
    obtain ⟨chunk, r1⟩ := p
    obtain ⟨hf, hchunk, hr1⟩ := rreadE_ok r 4 chunk r1 hr
    simp only at h
    split at h
    · simp at h
    · next hlen =>
      simp only [Except.ok.injEq, Prod.mk.injEq] at h
      have hlen4 : chunk.length = 4 := by omega
      rw [← h.2, hr1, hlen4]
      exact ⟨rfl, rfl, rfl⟩

/-- A successful optional-field read returns `some` exactly when its flag bit
is nonzero, and consumes 4 bytes in that case and none otherwise. -/
theorem read_optional_u32_ok (c : Nat) (r : Reader) (v : Option Nat) (r2 : Reader)
    (h : handler.read_optional_u32 c r = .ok (v, r2)) :
    (v.isSome = true ↔ c ≠ 0) ∧ r2.data = r.data ∧ r2.fault = r.fault ∧
      r2.pos = r.pos + (if c ≠ 0 then 4 else 0) := by
  unfold handler.read_optional_u32 at h
  split at h
  · next hc =>
    cases hr : handler.readU32E r with
    | error e => rw [hr] at h; simp at h
    | ok p =>
      rw [hr] at h
      obtain ⟨w, r1⟩ := p
      simp only [Except.ok.injEq, Prod.mk.injEq] at h
      obtain ⟨hd, hf, hp⟩ := readU32E_ok r w r1 hr
      rw [← h.2, ← h.1]
      simp [hc, hd, hf, hp]
  · next hc =>
    simp only [Except.ok.injEq, Prod.mk.injEq] at h
    rw [← h.2, ← h.1]
    simp [hc]

/-- With its type matching `PACKAGE`, `validate_file_meta` never raises
`ValueError`. -/
theorem validate_file_meta_no_valueError (f : CCFile) (fs : FSFile)
    (h : f.file_type = CCType.PACKAGE) :
    validator.validate_file_meta f fs ≠ .error .valueError := by
  unfold validator.validate_file_meta
  simp only [h]
  split
  · simp_all
  · split
    · simp
    · split <;> simp

/-- `raise_if_set` produces either a `PackageException` or a normal return. -/
theorem raise_if_set_no_valueError (o : Option ValidationError) :
    validator.raise_if_set o ≠ .error .valueError := by
  cases o <;> simp [validator.raise_if_set]

/-- `validate_index_info` raises only `PackageException`. -/
theorem validate_index_info_no_valueError (r : Reader)
    (header : validator.DBPFHeader) (n : Nat) :
    validator.validate_index_info r header n ≠ .error .valueError := by
  unfold validator.validate_index_info
  exact raise_if_set_no_valueError _

/-- The `try` suite of `validate` never raises `ValueError` once the
file-type guard has passed. -/
theorem validate_body_no_valueError (f : CCFile) (fs : FSFile)
    (h : f.file_type = CCType.PACKAGE) :
    validator.validate_body f fs ≠ .error .valueError := by
  unfold validator.validate_body
  cases hm : validator.validate_file_meta f fs with
  | error e =>
    have hne : e ≠ .valueError := fun he =>
      validate_file_meta_no_valueError f fs h (he ▸ hm)
    simp [hne]
  | ok u =>
    dsimp only
    cases hu : pyOpen fs with
    | error e =>
      have hne : e ≠ .valueError := by
        intro he
        rw [he] at hu
        unfold pyOpen at hu
        split at hu <;> simp at hu
      simp [hne]
    | ok r =>
      dsimp only
      cases hr : rreadE r magic.HEADER_SIZE with
      | error e =>
        have hne : e ≠ .valueError := by
          intro he
          rw [he] at hr
          unfold rreadE at hr
          split at hr <;> simp at hr
        simp [hne]
      | ok p =>
        obtain ⟨chunk, r1⟩ := p
        dsimp only
        cases hp : validator.parse_dbpf2_header chunk with
        | error e =>
          have hne : e ≠ .valueError := by
            intro he
            rw [he] at hp
            unfold validator.parse_dbpf2_header at hp
            split at hp <;> simp at hp
          simp [hne]
        | ok header =>
          simp [validate_header_attributeError header]

/-! The claim theorems. -/

/-- Claim C1: for every `CCFile` of type `PACKAGE` whose path exists, is a
regular file, and has byte length at least 96, `validate` returns
`UNKNOWN_ERROR` — so never `None` (pass) and never a header- or
index-related error kind — because `validate_header` evaluates
`magic.EXPECTED_UNKNOWN_CONSTANT`, an attribute the magic-numbers module
does not define, and the resulting `AttributeError` is caught by the generic
handler in `validate`. -/
theorem c1_validate_unknown_error (f : CCFile) (fs : FSFile)
    (h1 : f.file_type = CCType.PACKAGE) (h2 : fs.pathExists = true)
    (h3 : fs.isRegularFile = true) (h4 : magic.MIN_FILE_SIZE ≤ fs.stSize) :
    validator.validate f fs = .ok (some .UNKNOWN_ERROR) :=
  validate_unknown_of_wellformed f fs h1 h2 h3 h4

/-- Witness for C1 at a concrete 96-byte package file. -/
theorem c1_validate_unknown_error_witness :
    validator.validate ⟨CCType.PACKAGE, 96⟩
        ⟨true, true, 96, List.replicate 96 0, false⟩ =
      .ok (some .UNKNOWN_ERROR) :=
  c1_validate_unknown_error ⟨CCType.PACKAGE, 96⟩
    ⟨true, true, 96, List.replicate 96 0, false⟩ rfl rfl rfl (by decide)

/-- Claim C2 (code bug): `c2header` passes the signature and format-version
checks and carries constant-one `0` and hole-offset `3`, the exact values the
claim says must be accepted — yet `validate_header` raises `AttributeError`,
because the compared attribute `magic.EXPECTED_UNKNOWN_CONSTANT` does not
exist; `INVALID_UNKNOWN_CONSTANT` is unreachable, and the constant-one field
is never compared at all. -/
theorem c2_attribute_error_code_bug :
    c2header.file_signature = magic.FILE_IDENTIFIER ∧
      c2header.unknown_one = 0 ∧ c2header.unknown_constant = 3 ∧
      validator.validate_header c2header = .error .attributeError :=
  ⟨rfl, rfl, rfl, rfl⟩

/-- Claim C3 counterexample: `c3fs` is an existing regular 96-byte file whose
signature is `b"XXXX"` — not `b"DBPF"` — and whose other header fields hold
their expected values, yet `validate` returns `UNKNOWN_ERROR`, not
`INVALID_FILE_IDENTIFIER`. -/
theorem c3_counterexample :
    c3bytes.take 4 ≠ magic.FILE_IDENTIFIER ∧
      validator.validate ⟨CCType.PACKAGE, 96⟩ c3fs = .ok (some .UNKNOWN_ERROR) ∧
      ValidationError.UNKNOWN_ERROR ≠ ValidationError.INVALID_FILE_IDENTIFIER :=
  ⟨by decide, rfl, by decide⟩

/-- Claim C3 as amended: for every existing regular `PACKAGE` file of at
least 96 bytes whose signature differs from `b"DBPF"`, `validate` returns
`UNKNOWN_ERROR` — the undefined-attribute `AttributeError` in
`validate_header` fires before any header error can be raised (and a later
failing check would in any case overwrite `INVALID_FILE_IDENTIFIER`, since
the error code is overwritten, not returned at the first violation). -/
theorem c3_amended_unknown_error (f : CCFile) (fs : FSFile)
    (h1 : f.file_type = CCType.PACKAGE) (h2 : fs.pathExists = true)
    (h3 : fs.isRegularFile = true) (h4 : magic.MIN_FILE_SIZE ≤ fs.stSize)
    (h5 : fs.bytes.take 4 ≠ magic.FILE_IDENTIFIER) :
    validator.validate f fs = .ok (some .UNKNOWN_ERROR) :=
  validate_unknown_of_wellformed f fs h1 h2 h3 h4

/-- Witness for the amended C3 at a concrete file of 96 `0x01` bytes. -/
theorem c3_amended_unknown_error_witness :
    validator.validate ⟨CCType.PACKAGE, 96⟩
        ⟨true, true, 96, List.replicate 96 1, false⟩ =
      .ok (some .UNKNOWN_ERROR) :=
  c3_amended_unknown_error ⟨CCType.PACKAGE, 96⟩
    ⟨true, true, 96, List.replicate 96 1, false⟩ rfl rfl rfl (by decide)
    (by decide)

/-- Claim C4 (code bug): for a `PACKAGE` file whose path does not exist,
`validate` reports `UNKNOWN_ERROR`, not `FILE_NOT_FOUND` as the claim says:
`validate_file_meta` records `FILE_NOT_FOUND` but then calls `path.stat()`,
which raises `FileNotFoundError` for the missing path before the recorded
code can be raised, and the generic handler maps it to `UNKNOWN_ERROR`. -/
theorem c4_file_not_found_code_bug :
    validator.validate ⟨CCType.PACKAGE, 0⟩ c4fs = .ok (some .UNKNOWN_ERROR) ∧
      ValidationError.UNKNOWN_ERROR ≠ ValidationError.FILE_NOT_FOUND :=
  ⟨rfl, by decide⟩

/-- Claim C9 counterexample: for a `CCFile` whose type is `SCRIPT`, the
`ValueError` raised by `validate_file_meta` is re-raised by `validate` and
propagates to the caller, so `validate` does not return a value at all. -/
theorem c9_counterexample :
    validator.validate ⟨CCType.SCRIPT, 0⟩ ⟨true, true, 200, [], false⟩ =
      .error .valueError := rfl

/-- Claim C9 as amended: for every `CCFile` of type `PACKAGE`, `validate`
never propagates an exception — the caller always receives a normal return,
`None` or one `ValidationError`; for a `CCFile` of any other type,
`validate` deliberately re-raises the programming-error `ValueError`. -/
theorem c9_amended_no_exception (f : CCFile) (fs : FSFile)
    (h : f.file_type = CCType.PACKAGE) :
    ∃ r : Option ValidationError, validator.validate f fs = .ok r := by
  unfold validator.validate
  cases hb : validator.validate_body f fs with
  | ok v => exact ⟨v, rfl⟩
  | error e =>
    cases e
    case packageExc e2 => exact ⟨some e2, rfl⟩
    case valueError => exact absurd hb (validate_body_no_valueError f fs h)
    all_goals exact ⟨some .UNKNOWN_ERROR, rfl⟩

/-- Witness for the amended C9 at a concrete missing-path package. -/
theorem c9_amended_no_exception_witness :
    ∃ r : Option ValidationError,
      validator.validate ⟨CCType.PACKAGE, 0⟩ c4fs = .ok r :=
  c9_amended_no_exception ⟨CCType.PACKAGE, 0⟩ c4fs rfl

/-- Claim C10: for every existing regular `PACKAGE` file of fewer than 96
bytes, `validate` returns `FILE_TOO_SMALL`; the theorem holds for every
content `fs.bytes`, so the header is never decoded and no decode exception
escapes. -/
theorem c10_file_too_small (f : CCFile) (fs : FSFile)
    (h1 : f.file_type = CCType.PACKAGE) (h2 : fs.pathExists = true)
    (h3 : fs.isRegularFile = true) (h4 : fs.stSize < magic.MIN_FILE_SIZE) :
    validator.validate f fs = .ok (some .FILE_TOO_SMALL) := by
  unfold validator.validate validator.validate_body validator.validate_file_meta
  simp [h1, h2, h3, h4]

/-- Witness for C10 at a concrete 95-byte file. -/
theorem c10_file_too_small_witness :
    validator.validate ⟨CCType.PACKAGE, 95⟩
        ⟨true, true, 95, List.replicate 95 0, false⟩ =
      .ok (some .FILE_TOO_SMALL) :=
  c10_file_too_small ⟨CCType.PACKAGE, 95⟩
    ⟨true, true, 95, List.replicate 95 0, false⟩ rfl rfl rfl (by decide)

/-- Claim C5 (code bug): on `c5data` — `index_count = 2`, zero directory
flags, and two byte-distinct 16-byte entries at offsets 100 and 116 —
`get_entries` returns two identical entries, both decoded from offset 96:
the loop variable `index_pos` is initialised to `HEADER_SIZE` and never
advanced, and every iteration seeks back to it, so the byte cursor is not
cumulative and the decoded entries do not correspond to the back-to-back
entry ranges (whose bytes, as the second conjunct shows, differ). -/
theorem c5_entries_not_cumulative_code_bug :
    handler.get_entries c5data false = .ok [c5entry, c5entry] ∧
      (c5data.drop 112).take 16 ≠ (c5data.drop 96).take 16 :=
  ⟨rfl, by decide⟩

/-- Claim C6 counterexample: with directory flags `0b111` (all three bits
set), `decode_entry` does read the optional type, group and instance-upper
fields from the file — `resource_key_type` comes back `some` although the
type-flag bit is nonzero — and a non-extended entry consumes 28 bytes
(cursor 0 to 28), not 16 as the claim computes. -/
theorem c6_counterexample :
    handler.decode_entry c6flags ⟨c6bytes, 0, false⟩ =
        .ok (c6entry, ⟨c6bytes, 28, false⟩) ∧
      c6flags.constant_type ≠ 0 ∧ c6entry.resource_key_type.isSome = true :=
  ⟨rfl, by decide, rfl⟩

/-- Claim C6 as amended: an entry's optional type field is read iff
directory-flags bit 0 is nonzero, the group field iff bit 1 is nonzero, and
the instance-upper field iff bit 2 is nonzero (the opposite polarity of the
claim); consequently with flags `0b111` each non-extended entry consumes
exactly 28 bytes — 12 bytes of optional fields plus the 16-byte static part
— plus 4 more if its extended-entry bit is set. -/
theorem c6_amended_field_presence (flags : handler.DBPFIndexHeader)
    (r : Reader) (e : handler.DBPFEntry) (r2 : Reader)
    (h : handler.decode_entry flags r = .ok (e, r2)) :
    (e.resource_key_type.isSome = true ↔ flags.constant_type ≠ 0) ∧
      (e.resource_key_group.isSome = true ↔ flags.constant_group ≠ 0) ∧
      (e.resource_key_instance_upper_32_bits.isSome = true ↔
        flags.constant_instance ≠ 0) ∧
      (flags.constant_type ≠ 0 → flags.constant_group ≠ 0 →
        flags.constant_instance ≠ 0 →
        r2.pos = r.pos + 28 + (if e.extended_entry ≠ 0 then 4 else 0)) := by
  unfold handler.decode_entry at h
  cases h1 : handler.read_optional_u32 flags.constant_type r with
  | error e1 => rw [h1] at h; simp at h
  | ok p1 =>
  rw [h1] at h
  obtain ⟨v1, ra⟩ := p1
  obtain ⟨hv1, hd1, hf1, hp1⟩ := read_optional_u32_ok _ _ _ _ h1
  dsimp only at h
  cases h2 : handler.read_optional_u32 flags.constant_group ra with
  | error e2 => rw [h2] at h; simp at h
  | ok p2 =>
  rw [h2] at h
  obtain ⟨v2, rb⟩ := p2
  obtain ⟨hv2, hd2, hf2, hp2⟩ := read_optional_u32_ok _ _ _ _ h2
  dsimp only at h
  cases h3 : handler.read_optional_u32 flags.constant_instance rb with
  | error e3 => rw [h3] at h; simp at h
  | ok p3 =>
  rw [h3] at h
  obtain ⟨v3, rc⟩ := p3
  obtain ⟨hv3, hd3, hf3, hp3⟩ := read_optional_u32_ok _ _ _ _ h3
  dsimp only at h
  cases h4 : rreadE rc magic.STATIC_ENTRY_SIZE with
  | error e4 => rw [h4] at h; simp at h
  | ok p4 =>
  rw [h4] at h
  obtain ⟨chunk, rd⟩ := p4
  obtain ⟨hf4, hchunk, hrd⟩ := rreadE_ok _ _ _ _ h4
  dsimp only at h
  split at h
  · simp at h
  next hlen =>
  have hlen16 : chunk.length = 16 := not_ne_iff.mp hlen
  split at h
  · next hext =>
    cases h5 : rreadE rd 4 with
    | error e5 => rw [h5] at h; simp at h
    | ok p5 =>
    rw [h5] at h
    obtain ⟨chunk5, re5⟩ := p5
    obtain ⟨hf5, hchunk5, hre5⟩ := rreadE_ok _ _ _ _ h5
    dsimp only at h
    split at h
    · simp at h
    next hlen5 =>
    have hlen54 : chunk5.length = 4 := not_ne_iff.mp hlen5
    rw [Except.ok.injEq, Prod.mk.injEq] at h
    obtain ⟨he, hr2⟩ := h
    subst he
    subst hr2
    refine ⟨by simpa using hv1, by simpa using hv2, by simpa using hv3, ?_⟩
    intro hb1 hb2 hb3
    rw [if_pos hb1] at hp1
    rw [if_pos hb2] at hp2
    rw [if_pos hb3] at hp3
    have hp5 : re5.pos = rd.pos + 4 := by simp [hre5, hlen54]
    have hp4 : rd.pos = rc.pos + 16 := by simp [hrd, hlen16]
    replace hext : readLE chunk 8 4 >>> 31 % 2 = 1 := by
      rw [Nat.and_one_is_mod] at hext
      omega
    simp [hext]
    omega
  · next hext =>
    rw [Except.ok.injEq, Prod.mk.injEq] at h
    obtain ⟨he, hr2⟩ := h
    subst he
    subst hr2
    refine ⟨by simpa using hv1, by simpa using hv2, by simpa using hv3, ?_⟩
    intro hb1 hb2 hb3
    rw [if_pos hb1] at hp1
    rw [if_pos hb2] at hp2
    rw [if_pos hb3] at hp3
    have hp4 : rd.pos = rc.pos + 16 := by simp [hrd, hlen16]
    replace hext : readLE chunk 8 4 >>> 31 % 2 = 0 := by
      rw [not_ne_iff, Nat.and_one_is_mod] at hext
      exact hext
    simp [hext]
    omega

/-- Witness for the amended C6 at `c6flags`/`c6bytes`: the decoded entry's
type field is present. -/
theorem c6_amended_field_presence_witness :
    c6entry.resource_key_type.isSome = true :=
  ((c6_amended_field_presence c6flags ⟨c6bytes, 0, false⟩ c6entry
      ⟨c6bytes, 28, false⟩ rfl).1).mpr (by decide)

/-- Claim C7 counterexample: with `index_size = 0` and
`index_offset_short = 1000` against a 500-byte file — both the empty-index
and the bounds condition violated — `validate_index_info` reports
`INDEX_OUT_OF_BOUNDS`, not `EMPTY_INDEX_INFO` as the claim's fail-fast
order requires. -/
theorem c7_counterexample :
    validator.validate_index_info ⟨[], 0, false⟩ c7header 500 =
        .error (.packageExc .INDEX_OUT_OF_BOUNDS) ∧
      c7header.index_size = 0 ∧ c7header.index_offset_short > 500 ∧
      ValidationError.INDEX_OUT_OF_BOUNDS ≠ ValidationError.EMPTY_INDEX_INFO :=
  ⟨rfl, rfl, by decide, by decide⟩

/-- Claim C7 as amended: `validate_index_info` evaluates the empty-index
check, then the bounds check, then the byte-exact read, but a later violated
check overwrites the error code of an earlier one, so the single reported
kind is the last violated check, not the first: whenever `index_size = 0`
and the bounds check also fails, the reported kind is `INDEX_OUT_OF_BOUNDS`
(the short-read check cannot fire, since reading 0 bytes returns exactly
`index_size` bytes). -/
theorem c7_amended_last_check_wins (r : Reader) (header : validator.DBPFHeader)
    (n : Nat) (h1 : header.index_size = 0)
    (h2 : header.index_offset_short > n ∨
      header.index_offset_short + header.index_size > n)
    (h3 : r.fault = false) :
    validator.validate_index_info r header n =
      .error (.packageExc .INDEX_OUT_OF_BOUNDS) := by
  have h2b : n < header.index_offset_short := by omega
  unfold validator.validate_index_info
  simp [h1, h2b, h3, rread, validator.raise_if_set]

/-- Witness for the amended C7: a header with `index_size = 0` and offset 50
against a 40-byte file size reports `INDEX_OUT_OF_BOUNDS`. -/
theorem c7_amended_last_check_wins_witness :
    validator.validate_index_info ⟨[], 0, false⟩ c7header2 40 =
      .error (.packageExc .INDEX_OUT_OF_BOUNDS) :=
  c7_amended_last_check_wins ⟨[], 0, false⟩ c7header2 40 rfl (by decide) rfl

/-- Claim C8: given `index_size ≠ 0` and the arithmetic bounds check passing,
`validate_index_info` seeks to `index_offset_short` and reads `index_size`
bytes; it fails with `INVALID_INDEX` iff that read returns fewer than
`index_size` bytes (and did not raise), and with `INDEX_PARSE_ERROR` iff the
seek/read itself raises. -/
theorem c8_invalid_index_iff (r : Reader) (header : validator.DBPFHeader)
    (n : Nat) (h1 : header.index_size ≠ 0)
    (h2 : ¬(header.index_offset_short > n ∨
      header.index_offset_short + header.index_size > n)) :
    (validator.validate_index_info r header n =
        .error (.packageExc .INVALID_INDEX) ↔
      r.fault = false ∧
        ((r.data.drop header.index_offset_short).take header.index_size).length <
          header.index_size) ∧
      (validator.validate_index_info r header n =
          .error (.packageExc .INDEX_PARSE_ERROR) ↔ r.fault = true) := by
  unfold validator.validate_index_info
  cases hf : r.fault with
  | true => simp [h1, h2, hf, validator.raise_if_set]
  | false =>
    by_cases hL :
      ((r.data.drop header.index_offset_short).take header.index_size).length =
        header.index_size
    · simp [h1, h2, hf, hL, rread, validator.raise_if_set]
    · have hq : r.data.length - header.index_offset_short < header.index_size := by
        rw [List.length_take, List.length_drop] at hL
        omega
      simp [h1, h2, hf, rread, validator.raise_if_set, hq, List.length_take]

/-- Witness for C8: a header asking for 10 bytes at offset 0, in bounds for
the claimed size 10, over an empty actual stream: `INVALID_INDEX`. -/
theorem c8_invalid_index_iff_witness :
    validator.validate_index_info ⟨[], 0, false⟩ c8header 10 =
      .error (.packageExc .INVALID_INDEX) :=
  ((c8_invalid_index_iff ⟨[], 0, false⟩ c8header 10 (by decide) (by decide)).1).mpr
    ⟨rfl, by decide⟩

end Sims4PackageValidator
